import Mathlib

/-!
Verification development for the `simple-proxy` repository (`main.go`):
a reverse HTTP proxy that forwards every inbound request to a single
upstream target, optionally caching decompressed gzip bodies of GET
responses in an in-memory map that is periodically persisted as JSON.

The embedding below translates the proxy's pure logic into Lean.
Go byte strings are modelled as `List Char` (the code only manipulates
ASCII, where Go's byte indexing and Lean's character indexing agree).
Calls into the Go standard library (`net/url`, `compress/gzip`,
`encoding/json`/`encoding/base64`) are modelled by explicit Lean
definitions or by an oracle parameter, each documented at its
declaration.  Writes to the client are modelled as always succeeding:
the claims under study do not involve client-side write failures, so
the `io.Copy`-error branches of the handler collapse.
-/

namespace SimpleProxy

/-- Go byte strings, modelled as character lists (ASCII-transparent). -/
abbrev GoString := List Char

/-- Embed a Lean string literal as a `GoString`. -/
def gs (s : String) : GoString := s.toList

/-- Bytes of a Go `[]byte` slice. -/
abbrev Bytes := List (Fin 256)

/-- The fields of Go's `net/url.URL` that the proxy reads or writes:
`Scheme`, `Host`, `Path`, `RawPath`, `RawQuery`. -/
structure GoURL where
  scheme : GoString
  host : GoString
  path : GoString
  rawPath : GoString
  rawQuery : GoString
deriving DecidableEq

/-- `strings.HasSuffix(s, "/")` from the source. -/
def hasTrailSlash (s : GoString) : Bool := s.getLast? = some '/'

/-- `strings.HasPrefix(s, "/")` from the source. -/
def hasLeadSlash (s : GoString) : Bool := s.head? = some '/'

/-- `singleJoiningSlash` from `main.go` (lines 258-268): joins two path
strings, collapsing a doubled boundary slash and inserting one when
neither side provides it. -/
def singleJoiningSlash (a b : GoString) : GoString :=
  if hasTrailSlash a = true ∧ hasLeadSlash b = true then a ++ b.drop 1
  else if hasTrailSlash a = false ∧ hasLeadSlash b = false then a ++ '/' :: b
  else a ++ b

/-- Models `net/url.URL.EscapedPath` (Go stdlib, external to this
repository): returns `RawPath` when it is set (Go uses it whenever it is
a valid encoding of `Path`), otherwise the path itself (for the URLs the
proxy handles, escaping is the identity on an already-escaped path). -/
def GoURL.escapedPath (u : GoURL) : GoString :=
  if u.rawPath ≠ [] then u.rawPath else u.path

/-- `joinURLPath` from `main.go` (lines 237-256): returns the joined
`(Path, RawPath)` pair; when both raw paths are empty it defers to
`singleJoiningSlash` on the unescaped paths, otherwise it decides the
boundary slash on the escaped paths. -/
def joinURLPath (a b : GoURL) : GoString × GoString :=
  if a.rawPath = [] ∧ b.rawPath = [] then
    (singleJoiningSlash a.path b.path, [])
  else
    let apath := a.escapedPath
    let bpath := b.escapedPath
    if hasTrailSlash apath = true ∧ hasLeadSlash bpath = true then
      (a.path ++ b.path.drop 1, apath ++ bpath.drop 1)
    else if hasTrailSlash apath = false ∧ hasLeadSlash bpath = false then
      (a.path ++ '/' :: b.path, apath ++ '/' :: bpath)
    else
      (a.path ++ b.path, apath ++ bpath)

/-- `rewriteRequestURL` from `main.go` (lines 225-235): replaces scheme
and host with the target's, joins the paths, and joins the query strings
(`&`-separated when both are non-empty, plain concatenation otherwise).
The source mutates `req.URL` in place; the model returns the new URL. -/
def rewriteRequestURL (u target : GoURL) : GoURL :=
  let pr := joinURLPath target u
  { u with
    scheme := target.scheme
    host := target.host
    path := pr.1
    rawPath := pr.2
    rawQuery :=
      if target.rawQuery = [] ∨ u.rawQuery = [] then
        target.rawQuery ++ u.rawQuery
      else
        target.rawQuery ++ '&' :: u.rawQuery }

/-- Models `net/url.URL.String` (Go stdlib) for the URLs the proxy
handles (no user info, no opaque part, no fragment): scheme and host
when present, then the escaped path, then `?` and the raw query when the
query is non-empty. -/
def GoURL.toString (u : GoURL) : GoString :=
  (if u.scheme ≠ [] then u.scheme ++ [':'] else []) ++
  (if u.host ≠ [] then '/' :: '/' :: u.host else []) ++
  u.escapedPath ++
  (if u.rawQuery ≠ [] then '?' :: u.rawQuery else [])

/-- The fields of Go's `http.Request` the handler reads or writes:
method, URL, `Host`, `RequestURI` and the header map.  Header keys are
in Go's canonical MIME form, as `net/http` stores them after parsing. -/
structure Request where
  method : GoString
  url : GoURL
  host : GoString
  requestURI : GoString
  headers : List (GoString × GoString)
deriving DecidableEq

/-- The upstream `http.Response` fields the handler uses. -/
structure Response where
  status : Nat
  headers : List (GoString × GoString)
  body : Bytes
deriving DecidableEq

/-- Result of `http.DefaultClient.Do`: on transport failure Go returns a
`nil` response together with a non-nil error. -/
inductive UpstreamResult where
  | err (msg : GoString)
  | ok (resp : Response)
deriving DecidableEq

/-- The in-memory cache map `map[string][]byte`, modelled as an
association list whose key order is the (immaterial) iteration order. -/
abbrev CacheMap := List (GoString × Bytes)

/-- Go map read `c.data[p]`. -/
def CacheMap.find : CacheMap → GoString → Option Bytes
  | [], _ => none
  | (k', v') :: rest, k => if k' = k then some v' else CacheMap.find rest k

/-- Go map write `c.data[p] = v`: overwrite the binding if the key is
present, otherwise add it. -/
def CacheMap.store : CacheMap → GoString → Bytes → CacheMap
  | [], k, v => [(k, v)]
  | (k', v') :: rest, k, v =>
    if k' = k then (k, v) :: rest else (k', v') :: CacheMap.store rest k v

/-- `LocalCache` from `main.go` (lines 50-53). -/
structure LocalCache where
  filePath : GoString
  data : CacheMap
deriving DecidableEq

/-- Models `path.Join` (Go stdlib) on already-clean non-empty segments. -/
def pathJoin (a b : GoString) : GoString := a ++ '/' :: b

/-- `NewLocalCache` from `main.go` (lines 55-61). -/
def NewLocalCache (cacheDir : GoString) : LocalCache :=
  { filePath := if cacheDir ≠ [] then pathJoin cacheDir (gs "cache.json") else []
    data := [] }

/-- `LocalCache.useCache` from `main.go` (lines 63-65). -/
def LocalCache.useCache (c : LocalCache) : Bool := c.filePath ≠ []

/-- Outcome of running `compress/gzip` (Go stdlib, external to this
repository) over the response body as it is pulled through
`io.TeeReader(resp.Body, w)`:

* `eof`: `gzip.NewReader` hit `io.EOF` before reading any byte (empty
  body); nothing was pulled, so nothing was tee-written to the client.
* `headerErr consumed`: `gzip.NewReader` failed with a non-`io.EOF`
  error after the reads had pulled (and tee-written) `consumed` bytes of
  the body.
* `copyErr consumed`: decompression failed partway, after `consumed`
  bytes had been pulled through the tee.
* `ok out`: the whole body is one complete valid gzip stream; the reader
  consumed it entirely (every byte tee-written to the client) and
  produced the decompressed bytes `out`. -/
inductive GzipResult where
  | eof
  | headerErr (consumed : Nat)
  | copyErr (consumed : Nat)
  | ok (out : Bytes)
deriving DecidableEq

/-- A gzip oracle: what `compress/gzip` does on a given body. -/
abbrev GzipModel := Bytes → GzipResult

/-- What the client connection observes: status, headers, body bytes. -/
structure ClientResponse where
  status : Nat
  headers : List (GoString × GoString)
  body : Bytes
deriving DecidableEq

/-- Result of one `ServeHTTP` call.  `crashNilDeref` is the branch of
`main.go` line 162 that evaluates `resp.StatusCode` on a `nil` response:
the handler goroutine panics before writing anything; the outbound
request had already been issued and the cache map is untouched. -/
inductive Outcome where
  | crashNilDeref (outbound : Request) (data : CacheMap)
  | reply (client : ClientResponse) (outbound : Option Request) (data : CacheMap)
deriving DecidableEq

/-- The cache map after the handler finishes. -/
def Outcome.dataOf : Outcome → CacheMap
  | .crashNilDeref _ d => d
  | .reply _ _ d => d

/-- The response the client received, if the handler did not panic. -/
def Outcome.clientOf : Outcome → Option ClientResponse
  | .crashNilDeref _ _ => none
  | .reply cl _ _ => some cl

/-- The outbound request issued upstream, if any. -/
def Outcome.outboundOf : Outcome → Option Request
  | .crashNilDeref ob _ => some ob
  | .reply _ ob _ => ob

/-- Whether the handler panicked. -/
def Outcome.isCrash : Outcome → Bool
  | .crashNilDeref _ _ => true
  | .reply _ _ _ => false

/-- `r.Header.Del(k)` on canonical-form keys: removes every value stored
under the key. -/
def headerDel (hs : List (GoString × GoString)) (k : GoString) :
    List (GoString × GoString) :=
  hs.filter (fun kv => kv.1 ≠ k)

/-- `p := r.URL.String()` from `main.go` line 124: the cache key. -/
def requestKey (r : Request) : GoString := r.url.toString

/-- The forwarding part of `ServeHTTP` (`main.go` lines 145-205):
rewrite the URL onto the target, clear `Host`/`RequestURI`, strip the
conditional-request headers, issue the outbound call; on transport error
dereference the `nil` response (panic); otherwise mirror headers and
status, then either stream the body straight through (non-GET or cache
disabled) or tee it through the gzip reader and store the decompressed
bytes on success. -/
def forwardPart (gz : GzipModel) (target : GoURL) (c : LocalCache)
    (r : Request) (up : UpstreamResult) (p : GoString) : Outcome :=
  let out : Request :=
    { r with
      url := rewriteRequestURL r.url target
      host := []
      requestURI := []
      headers :=
        headerDel (headerDel r.headers (gs "If-None-Match")) (gs "If-Modified-Since") }
  match up with
  | .err _ => .crashNilDeref out c.data
  | .ok resp =>
    if r.method ≠ gs "GET" ∨ c.useCache = false then
      .reply ⟨resp.status, resp.headers, resp.body⟩ (some out) c.data
    else
      match gz resp.body with
      | .eof => .reply ⟨resp.status, resp.headers, []⟩ (some out) c.data
      | .headerErr n => .reply ⟨resp.status, resp.headers, resp.body.take n⟩ (some out) c.data
      | .copyErr n => .reply ⟨resp.status, resp.headers, resp.body.take n⟩ (some out) c.data
      | .ok dec =>
        .reply ⟨resp.status, resp.headers, resp.body⟩ (some out) (c.data.store p dec)

/-- `ProxyHandler.ServeHTTP` from `main.go` (lines 122-206).  On a GET
with caching enabled, a cache hit is served directly from the map (an
implicit 200, no headers set by the handler itself) and the handler
returns; otherwise the request is forwarded.  The upstream's behaviour
is the `up` argument; the gzip oracle `gz` stands for `compress/gzip`. -/
def ServeHTTP (gz : GzipModel) (target : GoURL) (c : LocalCache)
    (r : Request) (up : UpstreamResult) : Outcome :=
  let p := requestKey r
  if r.method = gs "GET" ∧ c.useCache = true then
    match c.data.find p with
    | some cached => .reply ⟨200, [], cached⟩ none c.data
    | none => forwardPart gz target c r up p
  else
    forwardPart gz target c r up p

/-- High sextet of a byte: bits 7..2. -/
def hiSextet (a : Fin 256) : Fin 64 :=
  ⟨a.val / 4, by have := a.isLt; omega⟩

/-- Sextet spanning bytes one and two: bits 1..0 of the first byte and
bits 7..4 of the second. -/
def midSextet (a b : Fin 256) : Fin 64 :=
  ⟨a.val % 4 * 16 + b.val / 16, by have := a.isLt; have := b.isLt; omega⟩

/-- Sextet spanning bytes two and three: bits 3..0 of the second byte
and bits 7..6 of the third. -/
def mid2Sextet (b c : Fin 256) : Fin 64 :=
  ⟨b.val % 16 * 4 + c.val / 64, by have := b.isLt; have := c.isLt; omega⟩

/-- Low sextet of a byte: bits 5..0. -/
def loSextet (c : Fin 256) : Fin 64 :=
  ⟨c.val % 64, by omega⟩

/-- The base64 standard alphabet (`A-Z`, `a-z`, `0-9`, `+`, `/`). -/
def sextetChar (n : Fin 64) : Char :=
  if n.val < 26 then Char.ofNat (65 + n.val)
  else if n.val < 52 then Char.ofNat (97 + (n.val - 26))
  else if n.val < 62 then Char.ofNat (48 + (n.val - 52))
  else if n.val = 62 then '+'
  else '/'

/-- Inverse of the base64 alphabet. -/
def charSextet (c : Char) : Option (Fin 64) :=
  if h : 65 ≤ c.toNat ∧ c.toNat ≤ 90 then some ⟨c.toNat - 65, by omega⟩
  else if h : 97 ≤ c.toNat ∧ c.toNat ≤ 122 then some ⟨c.toNat - 97 + 26, by omega⟩
  else if h : 48 ≤ c.toNat ∧ c.toNat ≤ 57 then some ⟨c.toNat - 48 + 52, by omega⟩
  else if c = '+' then some ⟨62, by omega⟩
  else if c = '/' then some ⟨63, by omega⟩
  else none

/-- Models `encoding/base64.StdEncoding` encoding (Go stdlib), which
`encoding/json` applies to every `[]byte` value: three input bytes per
four alphabet characters, `=`-padded at the tail. -/
def b64Encode : Bytes → GoString
  | [] => []
  | [a] => [sextetChar (hiSextet a), sextetChar (midSextet a 0), '=', '=']
  | [a, b] =>
    [sextetChar (hiSextet a), sextetChar (midSextet a b),
     sextetChar (mid2Sextet b 0), '=']
  | a :: b :: c :: rest =>
    sextetChar (hiSextet a) :: sextetChar (midSextet a b) ::
    sextetChar (mid2Sextet b c) :: sextetChar (loSextet c) :: b64Encode rest

/-- First decoded byte of a base64 quantum. -/
def deByte1 (s1 s2 : Fin 64) : Fin 256 :=
  ⟨s1.val * 4 + s2.val / 16, by have := s1.isLt; have := s2.isLt; omega⟩

/-- Second decoded byte of a base64 quantum. -/
def deByte2 (s2 s3 : Fin 64) : Fin 256 :=
  ⟨s2.val % 16 * 16 + s3.val / 4, by have := s3.isLt; omega⟩

/-- Third decoded byte of a base64 quantum. -/
def deByte3 (s3 s4 : Fin 64) : Fin 256 :=
  ⟨s3.val % 4 * 64 + s4.val, by have := s4.isLt; omega⟩

/-- Models `encoding/base64.StdEncoding` decoding (Go stdlib) on
canonical inputs: four characters per quantum, with `=`-padding only in
the final quantum. -/
def b64Decode : GoString → Option Bytes
  | [] => some []
  | c1 :: c2 :: c3 :: c4 :: rest =>
    match charSextet c1, charSextet c2 with
    | some s1, some s2 =>
      if c3 = '=' then
        if c4 = '=' ∧ rest = [] then some [deByte1 s1 s2] else none
      else
        match charSextet c3 with
        | some s3 =>
          if c4 = '=' then
            if rest = [] then some [deByte1 s1 s2, deByte2 s2 s3] else none
          else
            match charSextet c4, b64Decode rest with
            | some s4, some tail =>
              some (deByte1 s1 s2 :: deByte2 s2 s3 :: deByte3 s3 s4 :: tail)
            | _, _ => none
        | none => none
    | _, _ => none
  | _ => none

/-- The JSON values the snapshot uses: strings and objects. -/
inductive Json where
  | str (s : GoString)
  | obj (fields : List (GoString × Json))

/-- `LocalCache.Save` from `main.go` (lines 68-74): `json.Marshal` of
the data map — each `[]byte` value marshals to its base64 string.  The
`os.WriteFile` call is I/O; the model's result is the snapshot content
at the JSON-value level (the textual rendering is stdlib). -/
def LocalCache.Save (c : LocalCache) : Json :=
  .obj (c.data.map fun kv => (kv.1, .str (b64Encode kv.2)))

/-- Decoding the fields of the snapshot object back into the map, as
`json.Unmarshal` does for `map[string][]byte`. -/
def jsonToCache : List (GoString × Json) → Option CacheMap
  | [] => some []
  | (k, .str s) :: rest =>
    match b64Decode s, jsonToCache rest with
    | some v, some m => some ((k, v) :: m)
    | _, _ => none
  | _ => none

/-- `LocalCache.Load` from `main.go` (lines 77-86) on an existing
snapshot: `json.Unmarshal` of the snapshot into the data map of a fresh
(empty) cache.  The `os.ReadFile` call is I/O; the model takes the
snapshot content directly. -/
def LocalCache.Load (snapshot : Json) : Option CacheMap :=
  match snapshot with
  | .obj fields => jsonToCache fields
  | .str _ => none

/-! ### Concrete inputs used by witnesses and counterexamples -/

/-- A target base URL, as parsed from `TARGET_URL`. -/
def tgt0 : GoURL :=
  { scheme := gs "http", host := gs "upstream:9000", path := gs "/base"
    rawPath := [], rawQuery := [] }

/-- An inbound request URL: path `/a/b`, query `x=1`. -/
def url0 : GoURL :=
  { scheme := [], host := [], path := gs "/a/b", rawPath := [], rawQuery := gs "x=1" }

/-- An inbound GET request carrying a conditional-request header. -/
def req0 : Request :=
  { method := gs "GET", url := url0, host := gs "proxy.local"
    requestURI := gs "/a/b?x=1"
    headers := [(gs "If-None-Match", gs "etag-1"), (gs "Accept", gs "*/*")] }

/-- A cache with a directory configured (caching enabled) and no data. -/
def cacheOn : LocalCache := NewLocalCache (gs "/var/cache")

/-- Caching disabled: no cache directory configured. -/
def cacheOff : LocalCache := NewLocalCache []

/-- `cacheOn` holding decompressed bytes under `req0`'s key. -/
def decBytes : Bytes := [104, 101, 108, 108, 111]

/-- A cache that already holds `decBytes` under `req0`'s key. -/
def cacheHit : LocalCache :=
  { cacheOn with data := [(requestKey req0, decBytes)] }

/-- An upstream response whose body is a complete valid gzip stream. -/
def respGz : Response :=
  { status := 200, headers := [(gs "Content-Encoding", gs "gzip")]
    body := [31, 139, 8, 0, 0, 0, 0, 0, 0, 0, 1, 2, 3] }

/-- A gzip oracle for `respGz`: its body is one complete valid stream
decompressing to `decBytes`; the empty body yields `io.EOF`. -/
def gzOK : GzipModel := fun b => if b = [] then .eof else .ok decBytes

/-- An upstream response whose 20-byte body is not a gzip stream (its
first bytes are not the gzip magic). -/
def respBad : Response :=
  { status := 200, headers := [], body := List.replicate 20 0 }

/-- A gzip oracle modelling `gzip.NewReader` over a non-gzip body that
the transport delivers in 10-byte reads: the buffered reader pulls the
first 10 bytes (tee-written to the client), the header magic check
fails, the handler returns and the remaining bytes are never read. -/
def gzFail : GzipModel := fun b => if b = [] then .eof else .headerErr 10

/-- A path with its at-most-one trailing slash removed (used to state
the joining-slash property). -/
def dropTrailSlash (s : GoString) : GoString :=
  if hasTrailSlash s = true then s.dropLast else s

/-- A path with its at-most-one leading slash removed (used to state
the joining-slash property). -/
def dropLeadSlash (s : GoString) : GoString :=
  if hasLeadSlash s = true then s.drop 1 else s

/-- A target URL with a non-empty escaped path (`RawPath` set). -/
def u5a : GoURL :=
  { scheme := gs "http", host := gs "h", path := gs "/p one/"
    rawPath := gs "/p%20one/", rawQuery := [] }

/-- A request URL with a non-empty escaped path. -/
def u5b : GoURL :=
  { scheme := [], host := [], path := gs "/q r", rawPath := gs "/q%20r"
    rawQuery := [] }

/-- A target URL carrying a query string. -/
def t6 : GoURL :=
  { scheme := gs "http", host := gs "h", path := gs "/"
    rawPath := [], rawQuery := gs "a=1" }

/-- `req0` with the method changed to POST. -/
def reqPost : Request := { req0 with method := gs "POST" }

/-- The outbound request `ServeHTTP` issues for `req0` against `tgt0`:
URL rewritten onto the target, `Host`/`RequestURI` cleared, the
conditional-request header removed. -/
def outbound0 : Request :=
  { method := gs "GET"
    url := { scheme := gs "http", host := gs "upstream:9000"
             path := gs "/base/a/b", rawPath := [], rawQuery := gs "x=1" }
    host := [], requestURI := []
    headers := [(gs "Accept", gs "*/*")] }

/-! ### Helper lemmas -/

theorem eq_dropLast_slash {a : GoString} (h : hasTrailSlash a = true) :
    a.dropLast ++ ['/'] = a := by
  have h' : a.getLast? = some '/' := by simpa [hasTrailSlash] using h
  cases a with
  | nil => simp at h'
  | cons x xs =>
    have hne : x :: xs ≠ [] := by simp
    have hg : (x :: xs).getLast hne = '/' := by
      have hq := List.getLast?_eq_getLast (x :: xs) hne
      rw [hq] at h'
      exact Option.some.inj h'
    calc (x :: xs).dropLast ++ ['/']
        = (x :: xs).dropLast ++ [(x :: xs).getLast hne] := by rw [hg]
      _ = x :: xs := List.dropLast_append_getLast hne

theorem eq_cons_drop {b : GoString} (h : hasLeadSlash b = true) :
    '/' :: b.drop 1 = b := by
  have h' : b.head? = some '/' := by simpa [hasLeadSlash] using h
  cases b with
  | nil => simp at h'
  | cons x xs =>
    simp only [List.head?_cons, Option.some.injEq] at h'
    simp [h']

theorem singleJoiningSlash_eq (a b : GoString) :
    singleJoiningSlash a b = dropTrailSlash a ++ '/' :: dropLeadSlash b := by
  cases hA : hasTrailSlash a <;> cases hB : hasLeadSlash b <;>
    simp only [singleJoiningSlash, dropTrailSlash, dropLeadSlash, hA, hB,
      Bool.false_eq_true, Bool.true_eq_false, and_self, and_true, and_false,
      false_and, true_and, if_true, if_false, ite_true, ite_false, if_pos,
      if_neg, not_false_eq_true]
  · rw [eq_cons_drop hB]
  · conv_lhs => rw [← eq_dropLast_slash hA]
    simp
  · conv_lhs => rw [← eq_dropLast_slash hA]
    simp

theorem joinURLPath_raw_eq (a b : GoURL)
    (h : ¬(a.rawPath = [] ∧ b.rawPath = [])) :
    (joinURLPath a b).2 =
      dropTrailSlash a.escapedPath ++ '/' :: dropLeadSlash b.escapedPath := by
  unfold joinURLPath
  rw [if_neg h]
  cases hA : hasTrailSlash a.escapedPath <;>
    cases hB : hasLeadSlash b.escapedPath <;>
    simp only [hA, hB, dropTrailSlash, dropLeadSlash,
      Bool.false_eq_true, Bool.true_eq_false, and_self, and_true, and_false,
      false_and, true_and, if_true, if_false, ite_true, ite_false,
      not_false_eq_true]
  · rw [eq_cons_drop hB]
  · conv_lhs => rw [← eq_dropLast_slash hA]
    simp
  · conv_lhs => rw [← eq_dropLast_slash hA]
    simp

theorem find_store_self (m : CacheMap) (k : GoString) (v : Bytes) :
    (CacheMap.store m k v).find k = some v := by
  induction m with
  | nil => simp [CacheMap.store, CacheMap.find]
  | cons kv rest ih =>
    obtain ⟨k', v'⟩ := kv
    by_cases h : k' = k
    · simp [CacheMap.store, CacheMap.find, h]
    · simp [CacheMap.store, CacheMap.find, h, ih]

theorem sextet_roundtrip : ∀ n : Fin 64, charSextet (sextetChar n) = some n := by
  decide

theorem sextet_ne_pad : ∀ n : Fin 64, sextetChar n ≠ '=' := by
  decide

theorem deByte1_spec (a b : Fin 256) :
    deByte1 (hiSextet a) (midSextet a b) = a := by
  apply Fin.ext
  have ha := a.isLt
  have hb := b.isLt
  simp only [deByte1, hiSextet, midSextet]
  omega

theorem deByte2_spec (a b c : Fin 256) :
    deByte2 (midSextet a b) (mid2Sextet b c) = b := by
  apply Fin.ext
  have ha := a.isLt
  have hb := b.isLt
  have hc := c.isLt
  simp only [deByte2, midSextet, mid2Sextet]
  omega

theorem deByte3_spec (b c : Fin 256) :
    deByte3 (mid2Sextet b c) (loSextet c) = c := by
  apply Fin.ext
  have hb := b.isLt
  have hc := c.isLt
  simp only [deByte3, mid2Sextet, loSextet]
  omega

theorem b64_roundtrip : ∀ l : Bytes, b64Decode (b64Encode l) = some l
  | [] => rfl
  | [a] => by
    simp only [b64Encode, b64Decode, sextet_roundtrip]
    simp [deByte1_spec]
  | [a, b] => by
    simp only [b64Encode, b64Decode, sextet_roundtrip,
      sextet_ne_pad (mid2Sextet b 0), if_false, ite_false]
    simp [sextet_ne_pad, deByte1_spec, deByte2_spec]
  | a :: b :: c :: rest => by
    have ih := b64_roundtrip rest
    simp only [b64Encode, b64Decode, sextet_roundtrip, ih]
    simp [sextet_ne_pad, deByte1_spec, deByte2_spec, deByte3_spec]

theorem jsonToCache_map : ∀ m : CacheMap,
    jsonToCache (m.map fun kv => (kv.1, Json.str (b64Encode kv.2))) = some m
  | [] => rfl
  | kv :: rest => by
    have ih := jsonToCache_map rest
    simp [jsonToCache, b64_roundtrip kv.2, ih]

theorem mem_headerDel {hs : List (GoString × GoString)} {k : GoString}
    {kv : GoString × GoString} (h : kv ∈ headerDel hs k) :
    kv ∈ hs ∧ kv.1 ≠ k := by
  simpa [headerDel] using h

theorem forwardPart_outbound (gz : GzipModel) (target : GoURL)
    (c : LocalCache) (r : Request) (up : UpstreamResult) (p : GoString)
    (ro : Request) (h : (forwardPart gz target c r up p).outboundOf = some ro) :
    ro.headers =
      headerDel (headerDel r.headers (gs "If-None-Match")) (gs "If-Modified-Since") := by
  cases up with
  | err m =>
    simp only [forwardPart, Outcome.outboundOf, Option.some.injEq] at h
    rw [← h]
  | ok resp =>
    simp only [forwardPart] at h
    split at h
    · simp only [Outcome.outboundOf, Option.some.injEq] at h
      rw [← h]
    · split at h <;>
        simp only [Outcome.outboundOf, Option.some.injEq] at h <;>
        rw [← h]

/-! ### Claims -/

/-- C1: for a GET request with caching enabled whose cache lookup misses
and whose upstream response body is a complete valid gzip stream
(`gz resp.body = ok dec`), the handler sends the raw still-gzipped body
bytes to the client unmodified, and afterwards the cache maps the
request's key to the fully decompressed bytes `dec`. -/
theorem C1_cache_miss_gzip_capture (gz : GzipModel) (target : GoURL)
    (c : LocalCache) (r : Request) (resp : Response) (dec : Bytes)
    (hm : r.method = gs "GET") (hu : c.useCache = true)
    (hmiss : c.data.find (requestKey r) = none)
    (hgz : gz resp.body = GzipResult.ok dec) :
    (ServeHTTP gz target c r (.ok resp)).clientOf =
      some ⟨resp.status, resp.headers, resp.body⟩ ∧
    (ServeHTTP gz target c r (.ok resp)).dataOf =
      CacheMap.store c.data (requestKey r) dec ∧
    ((ServeHTTP gz target c r (.ok resp)).dataOf).find (requestKey r) =
      some dec := by
  refine ⟨?_, ?_, ?_⟩ <;>
    simp [ServeHTTP, forwardPart, hm, hu, hmiss, hgz,
      Outcome.clientOf, Outcome.dataOf, find_store_self]

/-- C1 witness: a concrete GET through an empty cache against a gzip
upstream body. -/
theorem C1_witness :
    (ServeHTTP gzOK tgt0 cacheOn req0 (.ok respGz)).clientOf =
      some ⟨respGz.status, respGz.headers, respGz.body⟩ ∧
    (ServeHTTP gzOK tgt0 cacheOn req0 (.ok respGz)).dataOf =
      CacheMap.store cacheOn.data (requestKey req0) decBytes ∧
    ((ServeHTTP gzOK tgt0 cacheOn req0 (.ok respGz)).dataOf).find
      (requestKey req0) = some decBytes :=
  C1_cache_miss_gzip_capture gzOK tgt0 cacheOn req0 respGz decBytes rfl
    (by decide) (by decide) (by decide)

/-- C2: for a GET request with caching enabled whose key is in the
cache, the handler replies with exactly the cached bytes, issues no
outbound request (the result does not depend on the upstream at all and
carries no outbound request), and leaves the cache unchanged. -/
theorem C2_cache_hit_serves_cached (gz : GzipModel) (target : GoURL)
    (c : LocalCache) (r : Request) (up : UpstreamResult) (cached : Bytes)
    (hm : r.method = gs "GET") (hu : c.useCache = true)
    (hhit : c.data.find (requestKey r) = some cached) :
    ServeHTTP gz target c r up =
      Outcome.reply ⟨200, [], cached⟩ none c.data := by
  simp [ServeHTTP, hm, hu, hhit]

/-- C2 witness: a concrete GET served from a warm cache. -/
theorem C2_witness :
    ServeHTTP gzOK tgt0 cacheHit req0 (.ok respGz) =
      Outcome.reply ⟨200, [], decBytes⟩ none cacheHit.data :=
  C2_cache_hit_serves_cached gzOK tgt0 cacheHit req0 (.ok respGz) decBytes rfl
    (by decide) (by decide)

/-- C3 (code bug): on a transport failure `http.Client.Do` returns a
`nil` response with a non-nil error, and line 162 of `main.go` evaluates
`resp.StatusCode` on that `nil` response: the handler panics and the
client receives no error response at all, contradicting the claim that
an HTTP error status with a plain-text body is returned.  Evaluated
here at a concrete failing input. -/
theorem C3_transport_failure_nil_deref :
    (ServeHTTP gzOK tgt0 cacheOn req0
      (.err (gs "dial tcp: connection refused"))).isCrash = true ∧
    (ServeHTTP gzOK tgt0 cacheOn req0
      (.err (gs "dial tcp: connection refused"))).clientOf = none := by
  decide

/-- C4 counterexample: a cache-eligible GET whose 20-byte upstream body
is not a gzip stream, delivered in 10-byte transport reads: the handler
returns as soon as `gzip.NewReader` fails, so the client receives only
the 10 bytes already pulled through the tee — not all of the raw
upstream body bytes, contrary to the claim. -/
theorem C4_counterexample :
    (ServeHTTP gzFail tgt0 cacheOn req0 (.ok respBad)).clientOf =
      some ⟨200, [], List.replicate 10 0⟩ ∧
    (ServeHTTP gzFail tgt0 cacheOn req0 (.ok respBad)).clientOf ≠
      some ⟨respBad.status, respBad.headers, respBad.body⟩ := by
  decide

/-- C4 (amended): when the decompression attempt on a cache-eligible GET
response ends at end-of-input immediately (empty body) or fails to parse
the body as gzip, no cache entry is created (the map is unchanged), the
status and headers are mirrored, and the client receives the prefix of
the raw body the gzip reader had pulled through the tee — the whole body
when it is empty, but possibly a strict prefix on a parse failure. -/
theorem C4_amended_no_store_body_prefix (gz : GzipModel) (target : GoURL)
    (c : LocalCache) (r : Request) (resp : Response)
    (hm : r.method = gs "GET") (hu : c.useCache = true)
    (hmiss : c.data.find (requestKey r) = none)
    (hgz : gz resp.body = GzipResult.eof ∨
      (∃ n, gz resp.body = GzipResult.headerErr n) ∨
      (∃ n, gz resp.body = GzipResult.copyErr n)) :
    (ServeHTTP gz target c r (.ok resp)).dataOf = c.data ∧
    ∃ cl : ClientResponse,
      (ServeHTTP gz target c r (.ok resp)).clientOf = some cl ∧
      cl.status = resp.status ∧ cl.headers = resp.headers ∧
      cl.body <+: resp.body ∧
      (resp.body = [] → cl.body = resp.body) := by
  rcases hgz with hgz | ⟨n, hgz⟩ | ⟨n, hgz⟩
  · refine ⟨?_, ⟨resp.status, resp.headers, []⟩, ?_, rfl, rfl, ?_, ?_⟩ <;>
      simp [ServeHTTP, forwardPart, hm, hu, hmiss, hgz,
        Outcome.clientOf, Outcome.dataOf]
  · refine ⟨?_, ⟨resp.status, resp.headers, resp.body.take n⟩, ?_, rfl, rfl,
      List.take_prefix n resp.body, ?_⟩ <;>
      simp [ServeHTTP, forwardPart, hm, hu, hmiss, hgz,
        Outcome.clientOf, Outcome.dataOf]
    intro h
    simp [h]
  · refine ⟨?_, ⟨resp.status, resp.headers, resp.body.take n⟩, ?_, rfl, rfl,
      List.take_prefix n resp.body, ?_⟩ <;>
      simp [ServeHTTP, forwardPart, hm, hu, hmiss, hgz,
        Outcome.clientOf, Outcome.dataOf]
    intro h
    simp [h]

/-- C4 witness: the amended claim at the concrete non-gzip response. -/
theorem C4_witness :
    (ServeHTTP gzFail tgt0 cacheOn req0 (.ok respBad)).dataOf =
      cacheOn.data ∧
    ∃ cl : ClientResponse,
      (ServeHTTP gzFail tgt0 cacheOn req0 (.ok respBad)).clientOf = some cl ∧
      cl.status = respBad.status ∧ cl.headers = respBad.headers ∧
      cl.body <+: respBad.body ∧
      (respBad.body = [] → cl.body = respBad.body) :=
  C4_amended_no_store_body_prefix gzFail tgt0 cacheOn req0 respBad rfl
    (by decide) (by decide) (Or.inr (Or.inl ⟨10, by decide⟩))

/-- C5: the joined outbound path always contains exactly one separating
slash between the target's path and the request's path — the join equals
the target path (its at-most-one trailing slash removed), one slash,
then the request path (its at-most-one leading slash removed).  This
holds for the unescaped join (`singleJoiningSlash`, which `joinURLPath`
uses verbatim when neither URL has an escaped path) and for the
escaped-path join computed by `joinURLPath` otherwise. -/
theorem C5_exactly_one_joining_slash :
    (∀ a b : GoString,
      singleJoiningSlash a b = dropTrailSlash a ++ '/' :: dropLeadSlash b) ∧
    (∀ a b : GoURL, a.rawPath = [] ∧ b.rawPath = [] →
      joinURLPath a b = (singleJoiningSlash a.path b.path, [])) ∧
    (∀ a b : GoURL, ¬(a.rawPath = [] ∧ b.rawPath = []) →
      (joinURLPath a b).2 =
        dropTrailSlash a.escapedPath ++ '/' :: dropLeadSlash b.escapedPath) :=
  ⟨singleJoiningSlash_eq,
   fun a b h => by simp [joinURLPath, h],
   joinURLPath_raw_eq⟩

/-- C5 witness: the property at concrete paths and at concrete URLs with
escaped paths. -/
theorem C5_witness :
    singleJoiningSlash (gs "/base/") (gs "/a") =
      dropTrailSlash (gs "/base/") ++ '/' :: dropLeadSlash (gs "/a") ∧
    joinURLPath tgt0 url0 = (singleJoiningSlash tgt0.path url0.path, []) ∧
    (joinURLPath u5a u5b).2 =
      dropTrailSlash u5a.escapedPath ++ '/' :: dropLeadSlash u5b.escapedPath :=
  ⟨C5_exactly_one_joining_slash.1 (gs "/base/") (gs "/a"),
   C5_exactly_one_joining_slash.2.1 tgt0 url0 (by decide),
   C5_exactly_one_joining_slash.2.2 u5a u5b (by decide)⟩

/-- C6: the rewritten outbound query is empty when both the target and
request queries are empty, equals the non-empty one when exactly one is
empty, and is the target query, `&`, then the request query when both
are non-empty. -/
theorem C6_query_join (u t : GoURL) :
    (t.rawQuery = [] → u.rawQuery = [] →
      (rewriteRequestURL u t).rawQuery = []) ∧
    (t.rawQuery = [] → (rewriteRequestURL u t).rawQuery = u.rawQuery) ∧
    (u.rawQuery = [] → (rewriteRequestURL u t).rawQuery = t.rawQuery) ∧
    (t.rawQuery ≠ [] → u.rawQuery ≠ [] →
      (rewriteRequestURL u t).rawQuery = t.rawQuery ++ '&' :: u.rawQuery) := by
  refine ⟨?_, ?_, ?_, ?_⟩
  · intro h1 h2
    simp [rewriteRequestURL, h1, h2]
  · intro h1
    simp [rewriteRequestURL, h1]
  · intro h1
    simp [rewriteRequestURL, h1]
  · intro h1 h2
    simp [rewriteRequestURL, h1, h2]

/-- C6 witness: both queries non-empty joins with `&`; empty target
query yields the request query. -/
theorem C6_witness :
    (rewriteRequestURL url0 t6).rawQuery = gs "a=1" ++ '&' :: gs "x=1" ∧
    (rewriteRequestURL url0 tgt0).rawQuery = url0.rawQuery :=
  ⟨(C6_query_join url0 t6).2.2.2 (by decide) (by decide),
   (C6_query_join url0 tgt0).2.1 rfl⟩

/-- C7: a non-GET request, or any request when no cache directory is
configured (`NewLocalCache ""` gives a disabled cache), neither reads
the cache map (the reply and outbound request are the same for every
map contents) nor writes it (the map comes out exactly as it went in). -/
theorem C7_cache_untouched (gz : GzipModel) (target : GoURL)
    (c : LocalCache) (r : Request) (up : UpstreamResult)
    (h : r.method ≠ gs "GET" ∨ c.useCache = false) :
    (NewLocalCache []).useCache = false ∧
    (ServeHTTP gz target c r up).dataOf = c.data ∧
    (∀ d' : CacheMap,
      (ServeHTTP gz target { c with data := d' } r up).dataOf = d' ∧
      (ServeHTTP gz target { c with data := d' } r up).clientOf =
        (ServeHTTP gz target c r up).clientOf ∧
      (ServeHTTP gz target { c with data := d' } r up).outboundOf =
        (ServeHTTP gz target c r up).outboundOf) := by
  have h' : r.method ≠ gs "GET" ∨ c.filePath = [] := by
    rcases h with h | h
    · exact Or.inl h
    · right
      simpa [LocalCache.useCache] using h
  refine ⟨by decide, ?_, ?_⟩
  · rcases h' with h1 | h1 <;>
      cases up <;>
      simp [ServeHTTP, forwardPart, h1, Outcome.dataOf, LocalCache.useCache]
  · intro d'
    rcases h' with h1 | h1 <;>
      cases up <;>
      refine ⟨?_, ?_, ?_⟩ <;>
      simp [ServeHTTP, forwardPart, h1, Outcome.dataOf, Outcome.clientOf,
        Outcome.outboundOf, LocalCache.useCache]

/-- C7 witness: a POST against a warm enabled cache. -/
theorem C7_witness :
    (NewLocalCache []).useCache = false ∧
    (ServeHTTP gzOK tgt0 cacheHit reqPost (.ok respGz)).dataOf =
      cacheHit.data :=
  ⟨(C7_cache_untouched gzOK tgt0 cacheHit reqPost (.ok respGz)
      (Or.inl (by decide))).1,
   (C7_cache_untouched gzOK tgt0 cacheHit reqPost (.ok respGz)
      (Or.inl (by decide))).2.1⟩

/-- C8: whenever a GET with caching enabled misses the cache and is
forwarded, the outbound request carries no `If-None-Match` and no
`If-Modified-Since` header, whatever the inbound request carried. -/
theorem C8_conditional_headers_stripped (gz : GzipModel) (target : GoURL)
    (c : LocalCache) (r : Request) (up : UpstreamResult)
    (hm : r.method = gs "GET") (hu : c.useCache = true)
    (hmiss : c.data.find (requestKey r) = none) :
    ∀ ro : Request, (ServeHTTP gz target c r up).outboundOf = some ro →
      ∀ kv : GoString × GoString, kv ∈ ro.headers →
        kv.1 ≠ gs "If-None-Match" ∧ kv.1 ≠ gs "If-Modified-Since" := by
  intro ro hro kv hkv
  have hserve : ServeHTTP gz target c r up =
      forwardPart gz target c r up (requestKey r) := by
    simp [ServeHTTP, hm, hu, hmiss]
  rw [hserve] at hro
  have hheads := forwardPart_outbound gz target c r up (requestKey r) ro hro
  rw [hheads] at hkv
  have h1 := mem_headerDel hkv
  have h2 := mem_headerDel h1.1
  exact ⟨h2.2, h1.2⟩

/-- C8 witness: the concrete inbound request carries `If-None-Match`;
the concrete outbound request's remaining header key is neither
conditional header. -/
theorem C8_witness :
    gs "Accept" ≠ gs "If-None-Match" ∧
    gs "Accept" ≠ gs "If-Modified-Since" :=
  C8_conditional_headers_stripped gzOK tgt0 cacheOn req0 (.ok respGz) rfl
    (by decide) (by decide) outbound0 (by decide)
    (gs "Accept", gs "*/*") (by decide)

/-- C9: saving the cache and loading the resulting snapshot into a
fresh (empty) cache instance reproduces the identical key-to-bytes
mapping. -/
theorem C9_snapshot_roundtrip (c : LocalCache) :
    LocalCache.Load (LocalCache.Save c) = some c.data := by
  simp [LocalCache.Save, LocalCache.Load, jsonToCache_map]

/-- C10: the cache key is exactly `r.URL.String()` — the URL's full
string form including the query — for both the lookup and the store, and
the method is not part of the key. -/
theorem C10_key_is_full_url (gz : GzipModel) (target : GoURL)
    (c : LocalCache) (r : Request) (up : UpstreamResult) :
    requestKey r = GoURL.toString r.url ∧
    (∀ m : GoString, requestKey { r with method := m } = requestKey r) ∧
    (∀ cached : Bytes, r.method = gs "GET" → c.useCache = true →
      c.data.find (GoURL.toString r.url) = some cached →
      ServeHTTP gz target c r up =
        Outcome.reply ⟨200, [], cached⟩ none c.data) ∧
    (∀ (resp : Response) (dec : Bytes), r.method = gs "GET" →
      c.useCache = true →
      c.data.find (GoURL.toString r.url) = none →
      gz resp.body = GzipResult.ok dec →
      (ServeHTTP gz target c r (.ok resp)).dataOf =
        CacheMap.store c.data (GoURL.toString r.url) dec) := by
  refine ⟨rfl, fun m => rfl, ?_, ?_⟩
  · intro cached hm hu hhit
    simp [ServeHTTP, requestKey, hm, hu, hhit]
  · intro resp dec hm hu hmiss hgz
    simp [ServeHTTP, forwardPart, requestKey, hm, hu, hmiss, hgz,
      Outcome.dataOf]

/-- C10 witness: the key of the concrete request is its URL string, and
the concrete store happens at that key. -/
theorem C10_witness :
    requestKey req0 = GoURL.toString req0.url ∧
    (ServeHTTP gzOK tgt0 cacheOn req0 (.ok respGz)).dataOf =
      CacheMap.store cacheOn.data (GoURL.toString req0.url) decBytes :=
  ⟨(C10_key_is_full_url gzOK tgt0 cacheOn req0 (.ok respGz)).1,
   (C10_key_is_full_url gzOK tgt0 cacheOn req0 (.ok respGz)).2.2.2 respGz
     decBytes rfl (by decide) (by decide) (by decide)⟩

end SimpleProxy
